import Mathlib

/-!
Shallow embedding of the cart pricing engine of the newsmefrontend
repository, together with proofs of the spec's testable properties.

The repository contains two parallel client-side implementations of the
cart context:

* `src/context/CartContext.js` — referred to below as the `Ctx` variant;
  its `calculateCartTotals` reports the taxable amount under the field
  name `subtotal` and the pre-discount sum under `preTaxAmount`.
* the unnamed module `src/contexts/CartContext.js` (part_000) — referred
  to below as the `P0` variant; its `calculateCartTotals` reports the
  pre-discount sum under `subtotal` and has no `preTaxAmount` field.

Their mutation operations (`addToCart`, `removeFromCart`,
`updateQuantity`) are textually identical up to which totals record the
shared `updateCart` attaches, so the mutations are embedded once, over
the `Ctx` cart record.

Monetary values are embedded as rationals; JavaScript's
`parseFloat(x.toFixed(2))` is embedded as `round2`, rounding to two
decimal places with ties going up, which is the decimal rounding
`Number.prototype.toFixed` performs.
-/

namespace NewsmeCart

/-- `parseFloat(x.toFixed(2))`: round to 2 decimal places, ties upward. -/
def round2 (q : ℚ) : ℚ := (⌊q * 100 + 1 / 2⌋ : ℚ) / 100

/-- The global tax rate `TAX_RATE = 0.16` used across the repository. -/
def TAX_RATE : ℚ := 16 / 100

/-- One cart line item, with the fields `addToCart` stores
(`id, name, price, quantity, discountPercentage, discountAmount,
imageUrl, stock, sku, barcode`).  `discountPercentage`, `discountAmount`
and `stock` may be absent in JavaScript, hence `Option`. -/
structure Item where
  id : ℕ
  name : String
  price : ℚ
  quantity : ℤ
  discountPercentage : Option ℚ
  discountAmount : Option ℚ
  imageUrl : Option String
  stock : Option ℤ
  sku : String
  barcode : String
deriving DecidableEq, Repr

/-- A product descriptor as consumed by `addToCart`. -/
structure Product where
  id : ℕ
  name : String
  price : ℚ
  discountPercentage : Option ℚ
  hasImage : Bool
  quantity_in_stock : Option ℤ
  sku : Option String
  barcode : Option String
deriving DecidableEq, Repr

/-- Totals record returned by the `P0` variant's `calculateCartTotals`:
`{ subtotal, discount, tax, total }`. -/
structure TotalsP0 where
  subtotal : ℚ
  discount : ℚ
  tax : ℚ
  total : ℚ
deriving DecidableEq, Repr

/-- Totals record returned by the `Ctx` variant's `calculateCartTotals`:
`{ preTaxAmount, subtotal, discount, tax, total }`. -/
structure TotalsCtx where
  preTaxAmount : ℚ
  subtotal : ℚ
  discount : ℚ
  tax : ℚ
  total : ℚ
deriving DecidableEq, Repr

/-- `calculateCartTotals` of the `P0` variant (part_000 lines 22–35):
`subtotal = Σ price·quantity`, `discount = Σ (discountAmount ∥ 0)·quantity`,
`taxableAmount = subtotal - discount`, `tax = taxableAmount * 0.16`,
`total = taxableAmount + tax`; each returned field is the raw value
passed through `parseFloat(·.toFixed(2))`. -/
def calculateCartTotalsP0 (items : List Item) : TotalsP0 :=
  let subtotal := items.foldl (fun sum item => sum + item.price * (item.quantity : ℚ)) 0
  let discount := items.foldl (fun sum item => sum + (item.discountAmount.getD 0) * (item.quantity : ℚ)) 0
  let taxableAmount := subtotal - discount
  let tax := taxableAmount * TAX_RATE
  let total := taxableAmount + tax
  { subtotal := round2 subtotal
    discount := round2 discount
    tax := round2 tax
    total := round2 total }

/-- `calculateCartTotals` of the `Ctx` variant (CartContext.js lines
32–55): the same raw computation as `calculateCartTotalsP0`, but the
returned record reports the raw pre-discount sum as `preTaxAmount` and
the taxable amount as `subtotal`. -/
def calculateCartTotalsCtx (items : List Item) : TotalsCtx :=
  let subtotal := items.foldl (fun sum item => sum + item.price * (item.quantity : ℚ)) 0
  let discount := items.foldl (fun sum item => sum + (item.discountAmount.getD 0) * (item.quantity : ℚ)) 0
  let taxableAmount := subtotal - discount
  let tax := taxableAmount * TAX_RATE
  let total := taxableAmount + tax
  { preTaxAmount := round2 subtotal
    subtotal := round2 taxableAmount
    discount := round2 discount
    tax := round2 tax
    total := round2 total }

/-- The cart snapshot held by the `Ctx` provider: the item list plus the
attached totals fields. -/
structure Cart where
  items : List Item
  preTaxAmount : ℚ
  subtotal : ℚ
  discount : ℚ
  tax : ℚ
  total : ℚ
deriving DecidableEq, Repr

/-- `getEmptyCart()` of CartContext.js (`preTaxAmount` is absent before
the first `updateCart`; it is embedded as `0`). -/
def getEmptyCart : Cart :=
  { items := [], preTaxAmount := 0, subtotal := 0, discount := 0, tax := 0, total := 0 }

/-- `updateCart` of the `Ctx` variant: build the new snapshot
`{...newCart, ...calculateCartTotals(newCart.items)}` from an item
list. -/
def updateCart (newItems : List Item) : Cart :=
  let t := calculateCartTotalsCtx newItems
  { items := newItems
    preTaxAmount := t.preTaxAmount
    subtotal := t.subtotal
    discount := t.discount
    tax := t.tax
    total := t.total }

/-- `product.discountPercentage ? (product.price * product.discountPercentage / 100) : 0`
(JavaScript truthiness: an absent or zero percentage yields 0). -/
def discountAmountOf (product : Product) : ℚ :=
  match product.discountPercentage with
  | none => 0
  | some p => if p = 0 then 0 else product.price * p / 100

/-- The new line item appended by `addToCart` when the product has no
existing line. -/
def newItemOf (product : Product) (quantity : ℤ) : Item :=
  { id := product.id
    name := product.name
    price := product.price
    quantity := quantity
    discountPercentage := product.discountPercentage
    discountAmount := some (discountAmountOf product)
    imageUrl := if product.hasImage then some ("/api/products/" ++ toString product.id ++ "/image") else none
    stock := product.quantity_in_stock
    sku := product.sku.getD ""
    barcode := product.barcode.getD "" }

/-- `addToCart` (CartContext.js lines 73–119 and part_000 lines 48–95):
stock is read as `product.quantity_in_stock || 0`; a stock below 1
returns the cart unchanged; an existing line is merged (rejected whole
when the merged quantity exceeds stock, with discount fields refreshed
from the product otherwise); otherwise a new line is appended — with no
check of the requested quantity against stock. -/
def addToCart (cart : Cart) (product : Product) (quantity : ℤ) : Cart :=
  let productStock := product.quantity_in_stock.getD 0
  let existingItem := cart.items.find? (fun item => item.id == product.id)
  if productStock < 1 then cart
  else
    match existingItem with
    | some ex =>
      if ex.quantity + quantity > productStock then cart
      else
        updateCart (cart.items.map (fun item =>
          if item.id == product.id then
            { item with
                quantity := item.quantity + quantity
                discountPercentage := product.discountPercentage
                discountAmount := some (discountAmountOf product) }
          else item))
    | none => updateCart (cart.items ++ [newItemOf product quantity])

/-- `removeFromCart` (CartContext.js lines 121–126): filter the line
out and recompute totals. -/
def removeFromCart (cart : Cart) (id : ℕ) : Cart :=
  updateCart (cart.items.filter (fun item => item.id != id))

/-- `updateQuantity` (CartContext.js lines 128–144): a new quantity
below 1 delegates to `removeFromCart`; otherwise the line's quantity is
replaced and totals recomputed. -/
def updateQuantity (cart : Cart) (id : ℕ) (newQuantity : ℤ) : Cart :=
  if newQuantity < 1 then removeFromCart cart id
  else
    updateCart (cart.items.map (fun item =>
      if item.id == id then { item with quantity := newQuantity } else item))

/-- A cart payload as consumed by `transformCartData` in cartService.js:
the tax-inclusive `subtotal` plus opaque pass-through data. -/
structure CartData where
  items : List Item
  subtotal : ℚ
deriving DecidableEq, Repr

/-- The record produced by `transformCartData`. -/
structure TransformedCart where
  items : List Item
  subtotal : ℚ
  preTaxAmount : ℚ
  taxAmount : ℚ
  total : ℚ
deriving DecidableEq, Repr

/-- `transformCartData` (cartService.js lines 14–26): derive the
pre-tax amount backward from the tax-inclusive subtotal,
`preTaxAmount = subtotal / (1 + TAX_RATE)` and
`taxAmount = subtotal - preTaxAmount`, each rounded to 2 places; the
payload is spread unchanged, so `total := cartData.subtotal` with no
rounding. -/
def transformCartData (cartData : CartData) : TransformedCart :=
  let preTaxAmount := cartData.subtotal / (1 + TAX_RATE)
  let taxAmount := cartData.subtotal - preTaxAmount
  { items := cartData.items
    subtotal := cartData.subtotal
    preTaxAmount := round2 preTaxAmount
    taxAmount := round2 taxAmount
    total := cartData.subtotal }

/-- The record produced by `calculateTaxBreakdown`. -/
structure TaxBreakdown where
  preTaxAmount : ℚ
  taxAmount : ℚ
  total : ℚ
deriving DecidableEq, Repr

/-- `calculateTaxBreakdown` (cartService.js lines 110–120): the same
backward derivation from a bare subtotal; here the returned `total` is
`parseFloat(subtotal.toFixed(2))`. -/
def calculateTaxBreakdown (subtotal : ℚ) : TaxBreakdown :=
  let preTaxAmount := subtotal / (1 + TAX_RATE)
  let taxAmount := subtotal - preTaxAmount
  { preTaxAmount := round2 preTaxAmount
    taxAmount := round2 taxAmount
    total := round2 subtotal }

/-- Spec-side expression of the pre-discount sum,
`Σ item.unitPrice * item.quantity` (spec §4.1 step 1), for comparison
with the source's `reduce`. -/
def sumSubtotal (items : List Item) : ℚ :=
  (items.map fun it => it.price * (it.quantity : ℚ)).sum

/-- Spec-side expression of the discount sum,
`Σ item.discountAmountPerUnit * item.quantity` (spec §4.1 step 2), for
comparison with the source's `reduce`. -/
def sumDiscount (items : List Item) : ℚ :=
  (items.map fun it => (it.discountAmount.getD 0) * (it.quantity : ℚ)).sum

/-- The spec §8 scenario item `{unitPrice: 100, quantity: 2,
discountPercentage: 10}` with its derived `discountAmountPerUnit = 10`. -/
def itemC1 : Item :=
  { id := 1, name := "", price := 100, quantity := 2, discountPercentage := some 10,
    discountAmount := some 10, imageUrl := none, stock := some 10, sku := "", barcode := "" }

/-- The spec §8 two-item scenario: `{100, qty 1, 0% discount}`. -/
def itemA : Item :=
  { id := 1, name := "", price := 100, quantity := 1, discountPercentage := none,
    discountAmount := some 0, imageUrl := none, stock := some 10, sku := "", barcode := "" }

/-- The spec §8 two-item scenario: `{50, qty 3, 20% discount}`
(`discountAmountPerUnit = 10`). -/
def itemB : Item :=
  { id := 2, name := "", price := 50, quantity := 3, discountPercentage := some 20,
    discountAmount := some 10, imageUrl := none, stock := some 10, sku := "", barcode := "" }

/-- A product with 3 units in stock and no discount. -/
def productStock3 : Product :=
  { id := 7, name := "", price := 100, discountPercentage := none, hasImage := false,
    quantity_in_stock := some 3, sku := none, barcode := none }

/-- A product with 10 units in stock and a 10% discount. -/
def productStock10 : Product :=
  { id := 7, name := "", price := 100, discountPercentage := some 10, hasImage := false,
    quantity_in_stock := some 10, sku := none, barcode := none }

/-- A product whose `quantity_in_stock` field is absent. -/
def productNoStock : Product :=
  { id := 9, name := "", price := 100, discountPercentage := none, hasImage := false,
    quantity_in_stock := none, sku := none, barcode := none }

/-! ## Helper lemmas -/

/-- A left fold accumulating `+ f it` is the sum of the mapped list:
relates the source's `reduce((sum, item) => sum + …, 0)` to the spec's
`Σ`. -/
theorem foldl_add_map_sum (f : Item → ℚ) (l : List Item) :
    ∀ init : ℚ, l.foldl (fun sum item => sum + f item) init = init + (l.map f).sum := by
  induction l with
  | nil => intro init; simp
  | cons a t ih =>
    intro init
    simp only [List.foldl_cons, List.map_cons, List.sum_cons, ih]
    ring

/-- `round2` is monotone. -/
theorem round2_mono {a b : ℚ} (h : a ≤ b) : round2 a ≤ round2 b := by
  unfold round2
  have hf : (⌊a * 100 + 1 / 2⌋ : ℤ) ≤ ⌊b * 100 + 1 / 2⌋ := by
    apply Int.floor_le_floor
    linarith
  have : ((⌊a * 100 + 1 / 2⌋ : ℤ) : ℚ) ≤ ((⌊b * 100 + 1 / 2⌋ : ℤ) : ℚ) := by
    exact_mod_cast hf
  linarith

/-- `round2 0 = 0`. -/
theorem round2_zero : round2 0 = 0 := by
  unfold round2
  norm_num

/-- When the product has no line in the cart and effective stock is at
least 1, `addToCart` appends the new line with the requested quantity. -/
theorem addToCart_of_absent (cart : Cart) (P : Product) (q : ℤ)
    (hstock : 1 ≤ P.quantity_in_stock.getD 0)
    (habsent : ∀ it ∈ cart.items, it.id ≠ P.id) :
    addToCart cart P q = updateCart (cart.items ++ [newItemOf P q]) := by
  have hfind : cart.items.find? (fun it => it.id == P.id) = none := by
    rw [List.find?_eq_none]
    intro it hit
    simpa using habsent it hit
  simp [addToCart, hfind, not_lt.mpr hstock]

/-- The item list attached by `updateCart` is the list it was given. -/
theorem updateCart_items (l : List Item) : (updateCart l).items = l := rfl

/-- When the product has an existing line and the merged quantity stays
within the effective stock, `addToCart` maps the merge over the item
list. -/
theorem addToCart_merge_ok (cart : Cart) (P : Product) (q : ℤ) (ex : Item)
    (hfind : cart.items.find? (fun it => it.id == P.id) = some ex)
    (hstock1 : 1 ≤ P.quantity_in_stock.getD 0)
    (hle : ex.quantity + q ≤ P.quantity_in_stock.getD 0) :
    addToCart cart P q = updateCart (cart.items.map (fun item =>
      if item.id == P.id then
        { item with
            quantity := item.quantity + q
            discountPercentage := P.discountPercentage
            discountAmount := some (discountAmountOf P) }
      else item)) := by
  simp [addToCart, hfind, not_lt.mpr hstock1, not_lt.mpr hle]

/-- When the merged quantity would exceed the effective stock,
`addToCart` returns the cart unchanged. -/
theorem addToCart_merge_over (cart : Cart) (P : Product) (q : ℤ) (ex : Item)
    (hfind : cart.items.find? (fun it => it.id == P.id) = some ex)
    (hover : P.quantity_in_stock.getD 0 < ex.quantity + q) :
    addToCart cart P q = cart := by
  by_cases hlow : P.quantity_in_stock.getD 0 < 1
  · simp [addToCart, hlow]
  · simp [addToCart, hlow, hfind, hover]

/-! ## Claim theorems -/

/-- C1 counterexample: on the single-item cart
`{unitPrice: 100, quantity: 2, discountPercentage: 10}`, the
`calculateCartTotals` of CartContext.js reports `subtotal = 180` (the
taxable amount), not `200`, so the field reported as the subtotal does
not equal the pre-discount sum there. -/
theorem c1_counterexample :
    (calculateCartTotalsCtx [itemC1]).subtotal = 180 ∧
      (calculateCartTotalsCtx [itemC1]).subtotal ≠ 200 := by
  constructor <;> norm_num [calculateCartTotalsCtx, itemC1, round2, TAX_RATE]

/-- C1 amended: on that cart the derived per-unit discount is 10 and
the totals are `discountTotal = 20`, `taxableAmount = 180`,
`taxAmount = 28.80`, `total = 208.80` in both variants; the pre-discount
sum 200 is reported as `subtotal` by the part_000 variant, while the
CartContext.js variant reports it as `preTaxAmount` and reports the
taxable amount 180 as `subtotal`. -/
theorem c1_amended :
    discountAmountOf { productStock10 with price := 100, discountPercentage := some 10 } = 10 ∧
      calculateCartTotalsP0 [itemC1] =
        { subtotal := 200, discount := 20, tax := 144 / 5, total := 1044 / 5 } ∧
      calculateCartTotalsCtx [itemC1] =
        { preTaxAmount := 200, subtotal := 180, discount := 20, tax := 144 / 5, total := 1044 / 5 } := by
  refine ⟨?_, ?_, ?_⟩ <;>
    norm_num [discountAmountOf, productStock10, calculateCartTotalsP0, calculateCartTotalsCtx,
      itemC1, round2, TAX_RATE, TotalsP0.mk.injEq, TotalsCtx.mk.injEq]

/-- C2 counterexample: for the item list `[{100, qty 1, 0%}, {50, qty 3,
20%}]` the pre-discount sum `Σ unitPrice·quantity` is 250, but the
`subtotal` field returned by CartContext.js's `calculateCartTotals` is
220, so `computeTotals` does not return `subtotal = Σ unitPrice·quantity`
in that variant. -/
theorem c2_counterexample :
    sumSubtotal [itemA, itemB] = 250 ∧
      (calculateCartTotalsCtx [itemA, itemB]).subtotal = 220 ∧
      (calculateCartTotalsCtx [itemA, itemB]).subtotal ≠ sumSubtotal [itemA, itemB] := by
  refine ⟨?_, ?_, ?_⟩ <;>
    norm_num [sumSubtotal, calculateCartTotalsCtx, itemA, itemB, round2, TAX_RATE]

/-- C2 amended: for every item list, both `calculateCartTotals` variants
compute `subtotal = Σ unitPrice·quantity`,
`discountTotal = Σ discountAmountPerUnit·quantity`,
`taxableAmount = subtotal − discountTotal`,
`taxAmount = taxableAmount · 0.16` and `total = taxableAmount + taxAmount`,
each returned field rounded to 2 decimal places independently from the
unrounded intermediates (never by re-summing rounded values); the
part_000 variant reports the pre-discount sum as `subtotal`, while the
CartContext.js variant reports the taxable amount as `subtotal` and the
pre-discount sum as `preTaxAmount`. -/
theorem c2_amended (items : List Item) :
    calculateCartTotalsP0 items =
      { subtotal := round2 (sumSubtotal items)
        discount := round2 (sumDiscount items)
        tax := round2 ((sumSubtotal items - sumDiscount items) * (16 / 100))
        total := round2 ((sumSubtotal items - sumDiscount items) +
          (sumSubtotal items - sumDiscount items) * (16 / 100)) } ∧
      calculateCartTotalsCtx items =
        { preTaxAmount := round2 (sumSubtotal items)
          subtotal := round2 (sumSubtotal items - sumDiscount items)
          discount := round2 (sumDiscount items)
          tax := round2 ((sumSubtotal items - sumDiscount items) * (16 / 100))
          total := round2 ((sumSubtotal items - sumDiscount items) +
            (sumSubtotal items - sumDiscount items) * (16 / 100)) } := by
  have hs := foldl_add_map_sum (fun it => it.price * (it.quantity : ℚ)) items 0
  have hd := foldl_add_map_sum (fun it => (it.discountAmount.getD 0) * (it.quantity : ℚ)) items 0
  simp only [zero_add] at hs hd
  constructor <;>
    simp [calculateCartTotalsP0, calculateCartTotalsCtx, hs, hd,
      sumSubtotal, sumDiscount, TAX_RATE]

/-- C3 counterexample: `addToCart` on an empty cart with a product that
has 3 units in stock and a requested quantity of 5 does not leave the
cart unchanged — it appends a line with quantity 5. -/
theorem c3_counterexample :
    (addToCart getEmptyCart productStock3 5).items.map Item.quantity = [5] ∧
      addToCart getEmptyCart productStock3 5 ≠ getEmptyCart := by
  constructor
  · decide
  · intro h
    have h2 : (addToCart getEmptyCart productStock3 5).items.map Item.quantity =
        getEmptyCart.items.map Item.quantity := by rw [h]
    revert h2
    decide

/-- C3 amended: when the product has no line in the cart and its
effective stock is at least 1, `addToCart` appends the new line with the
full requested quantity regardless of how it compares to the available
stock — the requested-quantity-vs-stock ceiling is enforced only when
merging into an existing line. -/
theorem c3_amended (cart : Cart) (product : Product) (q : ℤ)
    (hstock : 1 ≤ product.quantity_in_stock.getD 0)
    (habsent : ∀ it ∈ cart.items, it.id ≠ product.id) :
    addToCart cart product q = updateCart (cart.items ++ [newItemOf product q]) := by
  have hfind : cart.items.find? (fun it => it.id == product.id) = none := by
    rw [List.find?_eq_none]
    intro it hit
    simpa using habsent it hit
  simp [addToCart, hfind, not_lt.mpr hstock]

/-- Witness for C3 amended: empty cart, stock 3, requested quantity 5. -/
theorem c3_witness :
    (1 ≤ productStock3.quantity_in_stock.getD 0) ∧
      addToCart getEmptyCart productStock3 5 =
        updateCart (getEmptyCart.items ++ [newItemOf productStock3 5]) :=
  ⟨by decide,
   c3_amended getEmptyCart productStock3 5 (by decide) (by intro it hit; simp [getEmptyCart] at hit)⟩

/-- C4: for every cart payload, `transformCartData` derives the pre-tax
amount backward as `preTaxAmount = subtotal / (1 + 0.16)` and
`taxAmount = subtotal - preTaxAmount` (equivalently
`subtotal·16/116`), each rounded to 2 decimal places, while the
returned `total` is the tax-inclusive subtotal unchanged. -/
theorem c4_transformCartData (cartData : CartData) :
    (transformCartData cartData).preTaxAmount =
        round2 (cartData.subtotal / (1 + 16 / 100)) ∧
      (transformCartData cartData).taxAmount =
        round2 (cartData.subtotal - cartData.subtotal / (1 + 16 / 100)) ∧
      (transformCartData cartData).taxAmount = round2 (cartData.subtotal * 16 / 116) ∧
      (transformCartData cartData).total = cartData.subtotal := by
  refine ⟨rfl, rfl, ?_, rfl⟩
  have harg : cartData.subtotal - cartData.subtotal / (1 + TAX_RATE) =
      cartData.subtotal * 16 / 116 := by
    rw [TAX_RATE]
    ring
  simp only [transformCartData, harg]

/-- C5 counterexample: for a cart that already holds the product (one
unit added first), adding the product twice more (2 then 3, stock 10)
yields a single line of quantity 6, not 5 — so the claimed conclusion
fails for carts in which `P` already has a line. -/
theorem c5_counterexample :
    (addToCart (addToCart (addToCart getEmptyCart productStock10 1) productStock10 2)
        productStock10 3).items.map Item.quantity = [6] ∧
      (addToCart (addToCart (addToCart getEmptyCart productStock10 1) productStock10 2)
          productStock10 3).items.map Item.quantity ≠ [5] := by
  constructor <;> decide

/-- C5 amended: for every cart in which `P` has no line item and `P`
has 10 units in stock, adding 2 then 3 produces exactly one line for
`P`, with quantity 5; and whenever the merged quantity of an existing
line would exceed the effective stock, the whole operation is rejected
and the cart returned unchanged (no partial merge). -/
theorem c5_amended (cart : Cart) (P : Product)
    (habsent : ∀ it ∈ cart.items, it.id ≠ P.id)
    (hstock : P.quantity_in_stock = some 10) :
    ((addToCart (addToCart cart P 2) P 3).items.filter
        (fun it => it.id == P.id)).map Item.quantity = [5] ∧
      ∀ (c : Cart) (ex : Item) (q : ℤ),
        c.items.find? (fun it => it.id == P.id) = some ex →
        P.quantity_in_stock.getD 0 < ex.quantity + q →
        addToCart c P q = c := by
  have hstock1 : (1 : ℤ) ≤ P.quantity_in_stock.getD 0 := by rw [hstock]; norm_num
  refine ⟨?_, fun c ex q hfind hover => addToCart_merge_over c P q ex hfind hover⟩
  have h1 : addToCart cart P 2 = updateCart (cart.items ++ [newItemOf P 2]) :=
    addToCart_of_absent cart P 2 hstock1 habsent
  have hnone : cart.items.find? (fun it => it.id == P.id) = none := by
    rw [List.find?_eq_none]
    intro it hit
    simpa using habsent it hit
  have hfind2 : (updateCart (cart.items ++ [newItemOf P 2])).items.find?
      (fun it => it.id == P.id) = some (newItemOf P 2) := by
    rw [updateCart_items, List.find?_append, hnone]
    simp [List.find?_cons, newItemOf]
  have hle : (newItemOf P 2).quantity + 3 ≤ P.quantity_in_stock.getD 0 := by
    rw [hstock]
    simp [newItemOf]
  rw [h1, addToCart_merge_ok _ P 3 (newItemOf P 2) hfind2 hstock1 hle,
    updateCart_items, updateCart_items, List.map_append, List.filter_append]
  have hmapself : cart.items.map (fun item =>
      if item.id == P.id then
        { item with
            quantity := item.quantity + 3
            discountPercentage := P.discountPercentage
            discountAmount := some (discountAmountOf P) }
      else item) = cart.items := by
    have := List.map_congr_left (l := cart.items)
      (f := fun item =>
        if item.id == P.id then
          { item with
              quantity := item.quantity + 3
              discountPercentage := P.discountPercentage
              discountAmount := some (discountAmountOf P) }
        else item)
      (g := id)
      (by intro it hit
          have : (it.id == P.id) = false := by
            simpa [beq_eq_false_iff_ne] using habsent it hit
          simp [this])
    simpa using this
  rw [hmapself]
  have hfilternil : cart.items.filter (fun it => it.id == P.id) = [] := by
    rw [List.filter_eq_nil_iff]
    intro it hit
    simpa using habsent it hit
  rw [hfilternil]
  simp [newItemOf]

/-- Witness for C5 amended: the empty cart and the stock-10 product;
the no-partial-merge half is exercised by adding 9 more units to a cart
holding 2 (11 > 10 rejects the merge whole). -/
theorem c5_witness :
    (∀ it ∈ getEmptyCart.items, it.id ≠ productStock10.id) ∧
      productStock10.quantity_in_stock = some 10 ∧
      ((addToCart (addToCart getEmptyCart productStock10 2) productStock10 3).items.filter
          (fun it => it.id == productStock10.id)).map Item.quantity = [5] ∧
      addToCart (addToCart getEmptyCart productStock10 2) productStock10 9 =
        addToCart getEmptyCart productStock10 2 := by
  have habsent : ∀ it ∈ getEmptyCart.items, it.id ≠ productStock10.id := by
    intro it hit
    simp [getEmptyCart] at hit
  have h := c5_amended getEmptyCart productStock10 habsent rfl
  refine ⟨habsent, rfl, h.1, ?_⟩
  have hit : (addToCart getEmptyCart productStock10 2).items = [newItemOf productStock10 2] := by
    rw [addToCart_of_absent getEmptyCart productStock10 2 (by decide) habsent]
    rfl
  refine h.2 (addToCart getEmptyCart productStock10 2) (newItemOf productStock10 2) 9 ?_ (by decide)
  rw [hit]
  simp [List.find?_cons, newItemOf]

/-- C6: for every cart and productId `P`, `updateQuantity cart P n` with
`n < 1` (in particular `n = 0`) yields exactly the cart produced by
`removeFromCart cart P`: the line for `P` is deleted and the totals are
recomputed from the remaining items. -/
theorem c6_updateQuantity_below_one_is_remove (cart : Cart) (id : ℕ) (n : ℤ)
    (h : n < 1) : updateQuantity cart id n = removeFromCart cart id := by
  simp [updateQuantity, h]

/-- Witness for C6 at `n = 0` on a concrete one-item cart. -/
theorem c6_witness :
    (0 : ℤ) < 1 ∧
      updateQuantity (addToCart getEmptyCart productStock10 2) 7 0 =
        removeFromCart (addToCart getEmptyCart productStock10 2) 7 :=
  ⟨by decide,
   c6_updateQuantity_below_one_is_remove (addToCart getEmptyCart productStock10 2) 7 0
     (by decide)⟩

/-- C7: for every cart, product and requested quantity, `addToCart`
with an effective available stock below 1 (`product.quantity_in_stock || 0 < 1`)
returns the cart record unchanged — item list and every totals field. -/
theorem c7_no_stock_is_noop (cart : Cart) (product : Product) (q : ℤ)
    (h : product.quantity_in_stock.getD 0 < 1) : addToCart cart product q = cart := by
  simp [addToCart, h]

/-- Witness for C7 on a concrete cart and an out-of-stock product. -/
theorem c7_witness :
    ({ productStock3 with quantity_in_stock := some 0 } : Product).quantity_in_stock.getD 0 < 1 ∧
      addToCart (addToCart getEmptyCart productStock10 2)
        { productStock3 with quantity_in_stock := some 0 } 4 =
        addToCart getEmptyCart productStock10 2 :=
  ⟨by decide,
   c7_no_stock_is_noop (addToCart getEmptyCart productStock10 2)
     { productStock3 with quantity_in_stock := some 0 } 4 (by decide)⟩

/-- C8: for every non-empty item list whose items have a non-negative
unit price, a quantity of at least 1, and a per-unit discount derived
from a percentage in [0, 100], the computed subtotal and discount sums
satisfy `subtotal ≥ discountTotal ≥ 0`, both as raw sums and as the
rounded fields returned by `calculateCartTotals`. -/
theorem c8_subtotal_ge_discount (items : List Item)
    (_hne : items ≠ [])
    (h : ∀ it ∈ items, 0 ≤ it.price ∧ 1 ≤ it.quantity ∧
      ∃ p, 0 ≤ p ∧ p ≤ 100 ∧ it.discountAmount.getD 0 = it.price * p / 100) :
    0 ≤ sumDiscount items ∧ sumDiscount items ≤ sumSubtotal items ∧
      0 ≤ (calculateCartTotalsP0 items).discount ∧
      (calculateCartTotalsP0 items).discount ≤ (calculateCartTotalsP0 items).subtotal := by
  have key : ∀ it ∈ items, 0 ≤ (it.discountAmount.getD 0) * (it.quantity : ℚ) ∧
      (it.discountAmount.getD 0) * (it.quantity : ℚ) ≤ it.price * (it.quantity : ℚ) := by
    intro it hit
    obtain ⟨hp, hq, p, hp0, hp100, hda⟩ := h it hit
    have hq0 : (0 : ℚ) ≤ (it.quantity : ℚ) := by
      have : (0 : ℤ) ≤ it.quantity := le_trans zero_le_one hq
      exact_mod_cast this
    constructor
    · rw [hda]
      exact mul_nonneg (div_nonneg (mul_nonneg hp hp0) (by norm_num)) hq0
    · apply mul_le_mul_of_nonneg_right ?_ hq0
      rw [hda, div_le_iff₀ (by norm_num : (0 : ℚ) < 100)]
      exact mul_le_mul_of_nonneg_left hp100 hp
  have h1 : 0 ≤ sumDiscount items := by
    unfold sumDiscount
    apply List.sum_nonneg
    intro x hx
    obtain ⟨it, hit, rfl⟩ := List.mem_map.mp hx
    exact (key it hit).1
  have h2 : sumDiscount items ≤ sumSubtotal items := by
    unfold sumDiscount sumSubtotal
    exact List.sum_le_sum (fun it hit => (key it hit).2)
  have hfd : (calculateCartTotalsP0 items).discount = round2 (sumDiscount items) := by
    simp [calculateCartTotalsP0, foldl_add_map_sum, sumDiscount]
  have hfs : (calculateCartTotalsP0 items).subtotal = round2 (sumSubtotal items) := by
    simp [calculateCartTotalsP0, foldl_add_map_sum, sumSubtotal]
  refine ⟨h1, h2, ?_, ?_⟩
  · rw [hfd, ← round2_zero]
    exact round2_mono h1
  · rw [hfd, hfs]
    exact round2_mono h2

/-- Witness for C8 on the spec's two-item scenario
`[{100, qty 1, 0%}, {50, qty 3, 20%}]`. -/
theorem c8_witness :
    ([itemA, itemB] ≠ ([] : List Item)) ∧
      0 ≤ sumDiscount [itemA, itemB] ∧
      sumDiscount [itemA, itemB] ≤ sumSubtotal [itemA, itemB] ∧
      0 ≤ (calculateCartTotalsP0 [itemA, itemB]).discount ∧
      (calculateCartTotalsP0 [itemA, itemB]).discount ≤
        (calculateCartTotalsP0 [itemA, itemB]).subtotal := by
  have h := c8_subtotal_ge_discount [itemA, itemB] (by simp)
    (by intro it hit
        rcases List.mem_cons.mp hit with rfl | hit2
        · exact ⟨by norm_num [itemA], by norm_num [itemA],
            0, by norm_num, by norm_num, by norm_num [itemA]⟩
        · rcases List.mem_cons.mp hit2 with rfl | hit3
          · exact ⟨by norm_num [itemB], by norm_num [itemB],
              20, by norm_num, by norm_num, by norm_num [itemB]⟩
          · simp at hit3)
  exact ⟨by simp, h.1, h.2.1, h.2.2.1, h.2.2.2⟩

/-- C9: after every `addToCart` that actually mutates the cart (stock
at least 1 and, when merging, the merged quantity within stock), every
line whose id is the product's carries `discountAmount` and
`discountPercentage` recomputed from the product argument of this call:
the stored per-unit discount equals the product's current one, not the
value captured when the line was first added. -/
theorem c9_merge_refreshes_discount (cart : Cart) (P : Product) (q : ℤ)
    (hstock1 : 1 ≤ P.quantity_in_stock.getD 0)
    (hmerge : ∀ ex, cart.items.find? (fun it => it.id == P.id) = some ex →
      ex.quantity + q ≤ P.quantity_in_stock.getD 0) :
    ∀ it ∈ (addToCart cart P q).items, it.id = P.id →
      it.discountAmount = some (discountAmountOf P) ∧
        it.discountPercentage = P.discountPercentage := by
  cases hfind : cart.items.find? (fun it => it.id == P.id) with
  | none =>
    have habsent : ∀ it ∈ cart.items, it.id ≠ P.id := by
      intro it hit
      have := List.find?_eq_none.mp hfind it hit
      simpa using this
    rw [addToCart_of_absent cart P q hstock1 habsent, updateCart_items]
    intro it hit hid
    rcases List.mem_append.mp hit with hin | hin
    · exact absurd hid (habsent it hin)
    · have heq : it = newItemOf P q := by simpa using hin
      subst heq
      exact ⟨rfl, rfl⟩
  | some ex =>
    rw [addToCart_merge_ok cart P q ex hfind hstock1 (hmerge ex hfind), updateCart_items]
    intro it hit hid
    rcases List.mem_map.mp hit with ⟨x, hx, rfl⟩
    by_cases hxid : x.id == P.id
    · simp [hxid]
    · simp [hxid] at hid
      exact absurd hid (by simpa using hxid)

/-- Witness for C9: merging 3 units into a cart already holding 2 of
the stock-10 product refreshes the line's discount fields. -/
theorem c9_witness :
    (1 ≤ productStock10.quantity_in_stock.getD 0) ∧
      ∀ it ∈ (addToCart (addToCart getEmptyCart productStock10 2) productStock10 3).items,
        it.id = productStock10.id →
          it.discountAmount = some (discountAmountOf productStock10) ∧
            it.discountPercentage = productStock10.discountPercentage := by
  have habsent : ∀ it ∈ getEmptyCart.items, it.id ≠ productStock10.id := by
    intro it hit
    simp [getEmptyCart] at hit
  have hit : (addToCart getEmptyCart productStock10 2).items = [newItemOf productStock10 2] := by
    rw [addToCart_of_absent getEmptyCart productStock10 2 (by decide) habsent]
    rfl
  refine ⟨by decide,
    c9_merge_refreshes_discount (addToCart getEmptyCart productStock10 2) productStock10 3
      (by decide) ?_⟩
  intro ex hex
  rw [hit, List.find?_cons] at hex
  simp [newItemOf] at hex
  subst hex
  simp [newItemOf, productStock10]

/-- C10: `addToCart` reads stock as `product.quantity_in_stock || 0`,
so a product whose `quantity_in_stock` is absent (or present but 0) is
treated as out of stock and the add is a silent no-op, even for a
requested quantity of 1. -/
theorem c10_absent_stock_is_noop (cart : Cart) (product : Product) (q : ℤ)
    (h : product.quantity_in_stock = none ∨ product.quantity_in_stock = some 0) :
    addToCart cart product q = cart := by
  rcases h with h | h <;> simp [addToCart, h]

/-- Witness for C10: a product with no `quantity_in_stock` field,
requested quantity 1. -/
theorem c10_witness :
    (productNoStock.quantity_in_stock = none ∨ productNoStock.quantity_in_stock = some 0) ∧
      addToCart getEmptyCart productNoStock 1 = getEmptyCart :=
  ⟨Or.inl rfl, c10_absent_stock_is_noop getEmptyCart productNoStock 1 (Or.inl rfl)⟩

end NewsmeCart
